import Mathlib

/-!
Verification of the h2o_rocket launch sequencer (src/main.py) against its
natural-language specification.

Modelling conventions:
* Relay actuations and blocking holds are embedded as explicit event traces
  (`Ev`), and the relay states reachable by running a trace are computed by
  `runValves`.  Each main-sequence function of the source becomes a Lean
  function producing the trace of relay events it performs.
* The interrupt-driven `Encoder` is embedded as a pure state machine: the
  IRQ handler becomes a state-transition function taking the current
  timestamp (modelled in microseconds as `Nat`, matching the source's
  `time.ticks_us`-derived monotone clock), and an edge train becomes a list
  of timestamps folded through the handler.
* `wait_for_button_press` is embedded with modelled time: the button line is
  a function from elapsed time to level, sleeps advance the clock by their
  duration, and the loop is run on fuel that provably suffices.
-/

/-! ## Pin and timing constants (src/main.py lines 19-29) -/

def BUBBLE_VALVE_RELAY_PIN : Nat := 13

def TRANSFER_VALVE_RELAY_PIN : Nat := 12

def FIRE_VALVE_RELAY_PIN : Nat := 11

def BUBBLE_SLEEP : Nat := 5

def TRANSFER_SLEEP : Nat := 5

def FIRE_DURATION : Nat := 2

/-! ## Relay event traces -/

/-- One observable main-path effect: a relay switched on, a relay switched
off, or a blocking hold (`time.sleep`) of the given duration. -/
inductive Ev where
  | relayOn : Nat → Ev
  | relayOff : Nat → Ev
  | sleep : Nat → Ev
deriving DecidableEq, Repr

/-- Whether an event actuates a relay (as opposed to merely sleeping). -/
def isActuation : Ev → Bool
  | .relayOn _ => true
  | .relayOff _ => true
  | .sleep _ => false

/-- Logical on/off state of the three valve relays constructed in `main`. -/
structure Valves where
  bubble : Bool
  transfer : Bool
  fire : Bool
deriving DecidableEq, Repr

/-- All valves start OFF: `Relay.__init__` calls `turn_off()`. -/
def initValves : Valves := ⟨false, false, false⟩

/-- Set the valve attached to pin `p` to level `b`; unknown pins are inert. -/
def setPin (s : Valves) (p : Nat) (b : Bool) : Valves :=
  if p = BUBBLE_VALVE_RELAY_PIN then { s with bubble := b }
  else if p = TRANSFER_VALVE_RELAY_PIN then { s with transfer := b }
  else if p = FIRE_VALVE_RELAY_PIN then { s with fire := b }
  else s

/-- Effect of one event on the valve states. -/
def applyEv (s : Valves) : Ev → Valves
  | .relayOn p => setPin s p true
  | .relayOff p => setPin s p false
  | .sleep _ => s

/-- Run a trace of events from a valve state. -/
def runValves (s : Valves) (es : List Ev) : Valves := es.foldl applyEv s

/-! ## Main-sequence functions as event traces (src/main.py lines 128-165)

`generate_fuel` in the source reads:
`bubble_valve.turn_on(); time.sleep(duration); bubble_valve.turn_on()` —
note the second `turn_on` (line 133), where the sibling functions call
`turn_off`. -/

/-- Trace of `generate_fuel(bubble_valve, duration)`: turn on, hold, and
then the source turns the valve ON a second time (src/main.py line 133). -/
def generate_fuel (pin dur : Nat) : List Ev :=
  [.relayOn pin, .sleep dur, .relayOn pin]

/-- Trace of `transfer_fuel(transfer_valve, duration)`: on, hold, off. -/
def transfer_fuel (pin dur : Nat) : List Ev :=
  [.relayOn pin, .sleep dur, .relayOff pin]

/-- Trace of `fire_rocket(fire_valve, duration)`: on, hold, off. -/
def fire_rocket (pin dur : Nat) : List Ev :=
  [.relayOn pin, .sleep dur, .relayOff pin]

/-- Trace of `reset_system(transfer_valve_relay, fire_valve_relay)`:
a transfer purge followed by a firing (src/main.py lines 155-165). -/
def reset_system : List Ev :=
  transfer_fuel TRANSFER_VALVE_RELAY_PIN TRANSFER_SLEEP ++
    fire_rocket FIRE_VALVE_RELAY_PIN FIRE_DURATION

/-- Trace of the branch `if not wait_for_button_press(green_button)` in
`main` (src/main.py lines 215-218): it calls `reset_system`. -/
def green_timeout_abort : List Ev := reset_system

/-- Trace of the branch `if not wait_for_button_press(blue_button)` in
`main` (src/main.py lines 222-225): it calls `reset_system`. -/
def blue_timeout_abort : List Ev := reset_system

/-- Trace of the branch `if not wait_for_button_press(red_button)` in
`main` (src/main.py lines 232-235): it calls `fire_rocket` only. -/
def red_timeout_abort : List Ev :=
  fire_rocket FIRE_VALVE_RELAY_PIN FIRE_DURATION

/-! ## Encoder (src/main.py lines 65-98) -/

/-- State of the `Encoder` class: configured pulses per rotation and
debounce window, plus the mutable pulse counter, activation flag and
last-trigger timestamp written by the IRQ handler.  Times are in
microseconds (the source converts `time.ticks_us()` to float seconds and
uses a 0.001 s window; we keep the same monotone clock in integer µs). -/
structure Encoder where
  pulses_per_rotation : Nat
  debounce_time : Nat
  pulse_count : Nat
  activated : Bool
  last_trigger_time : Nat
deriving DecidableEq, Repr

/-- `Encoder._irq_handler` at timestamp `t`: if the elapsed time since the
last accepted edge exceeds the debounce window, count the pulse and update
the timestamp; on reaching `pulses_per_rotation`, set the activation flag
and reset the pulse counter (src/main.py lines 83-91). -/
def irq_handler (e : Encoder) (t : Nat) : Encoder :=
  if e.debounce_time < t - e.last_trigger_time then
    if e.pulses_per_rotation ≤ e.pulse_count + 1 then
      { e with pulse_count := 0, last_trigger_time := t, activated := true }
    else
      { e with pulse_count := e.pulse_count + 1, last_trigger_time := t }
  else e

/-- `Encoder.is_activated`: if the flag is set, clear it and return true,
else return false; the returned pair is (result, new state)
(src/main.py lines 93-98). -/
def is_activated (e : Encoder) : Bool × Encoder :=
  if e.activated then (true, { e with activated := false }) else (false, e)

/-- Deliver a train of rising edges (list of timestamps) to the handler. -/
def runEdges (e : Encoder) : List Nat → Encoder
  | [] => e
  | t :: ts => runEdges (irq_handler e t) ts

/-- Number of edges of the train that the handler accepts (i.e. that pass
the debounce test and increment the pulse counter). -/
def acceptedCount (e : Encoder) : List Nat → Nat
  | [] => 0
  | t :: ts =>
      (if e.debounce_time < t - e.last_trigger_time then 1 else 0) +
        acceptedCount (irq_handler e t) ts

/-- Every edge of the list arrives within less than `D` of its predecessor,
the first being within less than `D` of `prev`. -/
def closeFrom (D prev : Nat) : List Nat → Bool
  | [] => true
  | t :: ts => decide (t - prev < D) && closeFrom D t ts

/-- Every edge of the list arrives within less than `D` of the previous
edge of the list (no constraint on the first edge). -/
def closeChainB (D : Nat) : List Nat → Bool
  | [] => true
  | t :: ts => closeFrom D t ts

/-- Every edge of the list is a qualifying edge: it arrives more than `D`
after the previously accepted edge (starting from timestamp `last`), so
the handler accepts every edge of the list. -/
def qualChainB (D : Nat) : Nat → List Nat → Bool
  | _, [] => true
  | last, t :: ts => decide (D < t - last) && qualChainB D t ts

/-- The timestamp of the last edge of the list, or `last` if it is empty;
this is the value the last-trigger timestamp holds after an all-accepted
edge train. -/
def lastEdge (last : Nat) : List Nat → Nat
  | [] => last
  | t :: ts => lastEdge t ts

/-- The encoder as constructed in `main`: `Encoder(ENCODER_PIN,
pulses_per_rotation=2)` with the default 0.001 s (1000 µs) debounce and
zeroed counters. -/
def enc0 : Encoder := ⟨2, 1000, 0, false, 0⟩

/-! ## wait_for_button_press (src/main.py lines 168-184)

The loop body is: check `button.is_pressed()` (sample the line; if active,
sleep the debounce window and re-sample); if pressed, call
`button.led.off()` and return True; otherwise run `button.blink_led()`
(LED on, sleep one half-interval, LED off, sleep one half-interval) and
return False if the elapsed time now exceeds the timeout.  The line is
modelled as a function from modelled elapsed time to level; `d` is the
debounce window, `w` the blink half-interval, `T` the timeout, all in the
same time unit. -/

/-- Outcome of one call: whether the button was pressed, the modelled
elapsed time at return, and the indicator level at return. -/
structure WaitOut where
  pressed : Bool
  elapsed : Nat
  ledOn : Bool
deriving DecidableEq, Repr

/-- Fuel-indexed run of the `wait_for_button_press` loop from elapsed time
`t`; `none` only when the fuel runs out before the loop returns. -/
def waitFuel (line : Nat → Bool) (d w T : Nat) : Nat → Nat → Option WaitOut
  | 0, _ => none
  | fuel + 1, t =>
    if line t then
      if line (t + d) then
        some ⟨true, t + d, false⟩
      else
        if T < t + d + 2 * w then some ⟨false, t + d + 2 * w, false⟩
        else waitFuel line d w T fuel (t + d + 2 * w)
    else
      if T < t + 2 * w then some ⟨false, t + 2 * w, false⟩
      else waitFuel line d w T fuel (t + 2 * w)

/-- `wait_for_button_press(button, timeout=T)` with modelled time starting
at 0.  Fuel `T + 2` suffices for every run that terminates within the
timeout discipline of the source (each non-pressed iteration advances the
clock by a full blink cycle `2 * w ≥ 2` when `w ≥ 1`). -/
def wait_for_button_press (line : Nat → Bool) (d w T : Nat) : Option WaitOut :=
  waitFuel line d w T (T + 2) 0

/-- Default used to read fields out of an optional `WaitOut`. -/
def waitDefault : WaitOut := ⟨true, 0, true⟩

/-! ## Claim theorems -/

/-- C1: the spec claims `generate_fuel` activates the fuel-generation
actuator, holds, and then deactivates it, leaving it OFF at stage end and
activated exactly once.  Evaluating the code at the failing input: the
trace of `generate_fuel` ends with a second `turn_on` (src/main.py line
133), so after running it from the all-off initial state the bubble valve
is ON, and the trace contains no `turn_off` of the bubble valve at all. -/
theorem C1_generate_fuel_leaves_valve_on :
    generate_fuel BUBBLE_VALVE_RELAY_PIN BUBBLE_SLEEP =
      [Ev.relayOn BUBBLE_VALVE_RELAY_PIN, Ev.sleep BUBBLE_SLEEP,
        Ev.relayOn BUBBLE_VALVE_RELAY_PIN] ∧
    (runValves initValves (generate_fuel BUBBLE_VALVE_RELAY_PIN BUBBLE_SLEEP)).bubble = true ∧
    (generate_fuel BUBBLE_VALVE_RELAY_PIN BUBBLE_SLEEP).count
      (Ev.relayOff BUBBLE_VALVE_RELAY_PIN) = 0 := by
  decide

/-- C2 counterexample: the claim says the red-timeout abort performs no
actuation at all and in particular the ignition actuator does not change
state.  In the code the branch calls `fire_rocket` (src/main.py line 234):
its trace contains actuations, and already after its first event the fire
valve is ON although it started OFF. -/
theorem C2_red_abort_actuates :
    red_timeout_abort.filter isActuation ≠ [] ∧
    (runValves initValves (red_timeout_abort.take 1)).fire = true ∧
    initValves.fire = false := by
  decide

/-- C2 amended: when the red confirmation step times out, the abort branch
performs exactly one ignition-actuator activate/hold/deactivate
(`fire_rocket`); the transfer and bubble valves are untouched, the net
state change is nil (the fire valve ends OFF), and the branch contains no
other operation. -/
theorem C2_red_abort_is_exactly_fire (v : Valves) :
    red_timeout_abort =
      [Ev.relayOn FIRE_VALVE_RELAY_PIN, Ev.sleep FIRE_DURATION,
        Ev.relayOff FIRE_VALVE_RELAY_PIN] ∧
    red_timeout_abort.count (Ev.relayOn FIRE_VALVE_RELAY_PIN) = 1 ∧
    red_timeout_abort.count (Ev.relayOn TRANSFER_VALVE_RELAY_PIN) = 0 ∧
    red_timeout_abort.count (Ev.relayOff TRANSFER_VALVE_RELAY_PIN) = 0 ∧
    runValves v red_timeout_abort = { v with fire := false } := by
  exact ⟨rfl, rfl, rfl, rfl, rfl⟩

/-- C3 counterexample: the claim says no actuator other than the transfer
actuator is activated on the green/blue timeout abort path; in the code the
abort calls `reset_system`, whose trace activates the ignition actuator. -/
theorem C3_ignition_in_abort :
    Ev.relayOn FIRE_VALVE_RELAY_PIN ∈ green_timeout_abort ∧
    Ev.relayOn FIRE_VALVE_RELAY_PIN ∈ blue_timeout_abort := by
  decide

/-- C3 amended: when the green or blue confirmation step times out, the
abort action is `reset_system`: exactly one transfer-actuator
activate/hold/deactivate (the purge) followed by exactly one
ignition-actuator activate/hold/deactivate; afterwards the transfer and
fire valves are OFF and the bubble valve is unchanged.  The branch contains
no indicator, counter, or detector operation. -/
theorem C3_abort_purges_then_fires (v : Valves) :
    green_timeout_abort =
      [Ev.relayOn TRANSFER_VALVE_RELAY_PIN, Ev.sleep TRANSFER_SLEEP,
        Ev.relayOff TRANSFER_VALVE_RELAY_PIN,
        Ev.relayOn FIRE_VALVE_RELAY_PIN, Ev.sleep FIRE_DURATION,
        Ev.relayOff FIRE_VALVE_RELAY_PIN] ∧
    blue_timeout_abort = green_timeout_abort ∧
    green_timeout_abort.count (Ev.relayOn TRANSFER_VALVE_RELAY_PIN) = 1 ∧
    green_timeout_abort.count (Ev.relayOff TRANSFER_VALVE_RELAY_PIN) = 1 ∧
    green_timeout_abort.count (Ev.relayOn FIRE_VALVE_RELAY_PIN) = 1 ∧
    runValves v green_timeout_abort = { v with transfer := false, fire := false } := by
  exact ⟨rfl, rfl, rfl, rfl, rfl, rfl⟩

/-- C7: `is_activated` drains at most one pending activation per call: in
any state with a pending activation, two consecutive calls with no
intervening edges return true then false. -/
theorem C7_drains_at_most_one (e : Encoder) (h : e.activated = true) :
    (is_activated e).1 = true ∧ (is_activated (is_activated e).2).1 = false := by
  simp [is_activated, h]

/-- C7 witness: the drain property at a concrete armed encoder state. -/
theorem C7_drains_at_most_one_witness :
    (⟨2, 1000, 1, true, 5⟩ : Encoder).activated = true ∧
    ((is_activated (⟨2, 1000, 1, true, 5⟩ : Encoder)).1 = true ∧
      (is_activated (is_activated (⟨2, 1000, 1, true, 5⟩ : Encoder)).2).1 = false) :=
  ⟨rfl, C7_drains_at_most_one ⟨2, 1000, 1, true, 5⟩ rfl⟩

/-- C10: `is_activated` modifies only the activated flag: the pulse
counter, last-trigger time, pulses-per-rotation and debounce window of the
returned state equal those of the input state, whatever the result. -/
theorem C10_is_activated_frame (e : Encoder) :
    ((is_activated e).2).pulse_count = e.pulse_count ∧
    ((is_activated e).2).last_trigger_time = e.last_trigger_time ∧
    ((is_activated e).2).pulses_per_rotation = e.pulses_per_rotation ∧
    ((is_activated e).2).debounce_time = e.debounce_time := by
  by_cases h : e.activated <;> simp [is_activated, h]

/-! ## Lemmas about the wait loop -/

/-- Every return of the wait loop leaves the indicator OFF: the confirmed
branch calls `button.led.off()` and the timeout branch returns right after
a blink cycle ending with `led.off()`. -/
theorem waitFuel_ledOff (line : Nat → Bool) (d w T : Nat) :
    ∀ (fuel t : Nat) (r : WaitOut),
      waitFuel line d w T fuel t = some r → r.ledOn = false := by
  intro fuel
  induction fuel with
  | zero =>
    intro t r h
    simp [waitFuel] at h
  | succ n ih =>
    intro t r h
    simp only [waitFuel] at h
    split at h
    · split at h
      · injection h with h2
        subst h2
        rfl
      · split at h
        · injection h with h2
          subst h2
          rfl
        · exact ih _ _ h
    · split at h
      · injection h with h2
        subst h2
        rfl
      · exact ih _ _ h

/-- On a line that never goes active, the wait loop always times out, at a
modelled time strictly past `T` but within one blink cycle of it. -/
theorem waitFuel_never (d w T : Nat) :
    ∀ (fuel t : Nat), t ≤ T → T < t + 2 * w * fuel →
    ∃ E, waitFuel (fun _ => false) d w T fuel t = some ⟨false, E, false⟩ ∧
      T < E ∧ E ≤ T + 2 * w := by
  intro fuel
  induction fuel with
  | zero =>
    intro t ht hlt
    simp only [Nat.mul_zero, Nat.add_zero] at hlt
    omega
  | succ n ih =>
    intro t ht hlt
    rw [show waitFuel (fun _ => false) d w T (n + 1) t =
        (if T < t + 2 * w then some ⟨false, t + 2 * w, false⟩
          else waitFuel (fun _ => false) d w T n (t + 2 * w)) from rfl]
    by_cases h2 : T < t + 2 * w
    · exact ⟨t + 2 * w, by rw [if_pos h2], h2, by omega⟩
    · rw [if_neg h2]
      have hmul : 2 * w * (n + 1) = 2 * w * n + 2 * w := by ring
      exact ih (t + 2 * w) (by omega) (by omega)

/-- C5 counterexample: the claim says that on the confirmed outcome the
indicator is latched ON at step exit.  On a line that is active from the
start, the code confirms on the first poll and explicitly calls
`button.led.off()` (src/main.py line 182): the indicator is OFF at exit. -/
theorem C5_confirmed_exit_led :
    wait_for_button_press (fun _ => true) 1 1 5 = some ⟨true, 1, false⟩ ∧
    ((wait_for_button_press (fun _ => true) 1 1 5).getD waitDefault).ledOn ≠ true := by
  decide

/-- C5 amended: when the debounced input reads confirmed,
`wait_for_button_press` emits a success record and returns CONFIRMED, but
the indicator is explicitly turned OFF at step exit (`button.led.off()`),
not latched ON. -/
theorem C5_confirmed_led_off (line : Nat → Bool) (d w T : Nat) (r : WaitOut)
    (h : wait_for_button_press line d w T = some r) (hp : r.pressed = true) :
    r.pressed = true ∧ r.ledOn = false :=
  ⟨hp, waitFuel_ledOff line d w T (T + 2) 0 r h⟩

/-- C5 witness: the amended property at a concrete always-active line. -/
theorem C5_confirmed_led_off_witness :
    wait_for_button_press (fun _ => true) 2 1 5 = some ⟨true, 2, false⟩ ∧
    ((⟨true, 2, false⟩ : WaitOut).pressed = true ∧
      (⟨true, 2, false⟩ : WaitOut).ledOn = false) :=
  ⟨by decide,
    C5_confirmed_led_off (fun _ => true) 2 1 5 ⟨true, 2, false⟩ (by decide) rfl⟩

/-- C6: for every timeout `T`, `wait_for_button_press` on a line that
never becomes active returns TIMED_OUT with modelled elapsed time at least
`T` and at most `T` plus one full blink cycle (two half-cycles `w`). -/
theorem C6_timeout_in_window (d w T : Nat) (hw : 0 < w) :
    (wait_for_button_press (fun _ => false) d w T).isSome = true ∧
    ((wait_for_button_press (fun _ => false) d w T).getD waitDefault).pressed = false ∧
    ((wait_for_button_press (fun _ => false) d w T).getD waitDefault).ledOn = false ∧
    T ≤ ((wait_for_button_press (fun _ => false) d w T).getD waitDefault).elapsed ∧
    ((wait_for_button_press (fun _ => false) d w T).getD waitDefault).elapsed ≤ T + 2 * w := by
  have hb : T < 0 + 2 * w * (T + 2) := by
    have h2 : 2 * (T + 2) ≤ 2 * w * (T + 2) := Nat.mul_le_mul_right _ (by omega)
    omega
  obtain ⟨E, hE, hTE, hET⟩ := waitFuel_never d w T (T + 2) 0 (Nat.zero_le T) hb
  unfold wait_for_button_press
  rw [hE]
  exact ⟨rfl, rfl, rfl, Nat.le_of_lt hTE, hET⟩

/-- C6 witness: the timeout window property at debounce 1, half-interval 1
and timeout 3 (the run times out at modelled time 4 ≤ 3 + 2). -/
theorem C6_timeout_in_window_witness :
    0 < 1 ∧
    ((wait_for_button_press (fun _ => false) 1 1 3).isSome = true ∧
      ((wait_for_button_press (fun _ => false) 1 1 3).getD waitDefault).pressed = false ∧
      ((wait_for_button_press (fun _ => false) 1 1 3).getD waitDefault).ledOn = false ∧
      3 ≤ ((wait_for_button_press (fun _ => false) 1 1 3).getD waitDefault).elapsed ∧
      ((wait_for_button_press (fun _ => false) 1 1 3).getD waitDefault).elapsed ≤ 3 + 2 * 1) :=
  ⟨Nat.one_pos, C6_timeout_in_window 1 1 3 Nat.one_pos⟩

/-! ## Lemmas about the encoder -/

/-- An edge failing the debounce test leaves the encoder unchanged. -/
theorem irq_handler_reject (e : Encoder) (t : Nat)
    (h : ¬ e.debounce_time < t - e.last_trigger_time) :
    irq_handler e t = e := by
  unfold irq_handler
  rw [if_neg h]

/-- An accepted edge sets the last-trigger timestamp to its own time. -/
theorem irq_handler_last (e : Encoder) (t : Nat)
    (h : e.debounce_time < t - e.last_trigger_time) :
    (irq_handler e t).last_trigger_time = t := by
  unfold irq_handler
  rw [if_pos h]
  split <;> rfl

/-- The handler never changes the debounce window. -/
theorem irq_handler_debounce (e : Encoder) (t : Nat) :
    (irq_handler e t).debounce_time = e.debounce_time := by
  unfold irq_handler
  split
  · split <;> rfl
  · rfl

/-- Dropping the anchor of a `closeFrom` chain leaves a close chain. -/
theorem closeFrom_chain (D p : Nat) (ts : List Nat)
    (h : closeFrom D p ts = true) : closeChainB D ts = true := by
  cases ts with
  | nil => rfl
  | cons t ts =>
    simp only [closeFrom, Bool.and_eq_true] at h
    simpa [closeChainB] using h.2

/-- Over a train of edges each arriving within less than the debounce
window of its predecessor, the handler accepts at most every other edge:
the accepted count is bounded by half the train length, rounded up. -/
theorem acceptedCount_le_aux :
    ∀ (n : Nat) (e : Encoder) (ts : List Nat), ts.length ≤ n →
      closeChainB e.debounce_time ts = true →
      acceptedCount e ts ≤ (ts.length + 1) / 2 := by
  intro n
  induction n with
  | zero =>
    intro e ts hlen _
    have h0 : ts = [] := List.eq_nil_of_length_eq_zero (Nat.le_zero.mp hlen)
    subst h0
    simp [acceptedCount]
  | succ n ih =>
    intro e ts hlen hc
    rcases ts with _ | ⟨t1, _ | ⟨t2, rest⟩⟩
    · simp [acceptedCount]
    · have h1 : acceptedCount e [t1] ≤ 1 := by
        simp only [acceptedCount]
        split <;> simp
      simpa using h1
    · have hc' : (t2 - t1 < e.debounce_time) ∧
          closeFrom e.debounce_time t2 rest = true := by
        simpa [closeChainB, closeFrom, Bool.and_eq_true, decide_eq_true_eq] using hc
      obtain ⟨h12, hrest⟩ := hc'
      simp only [List.length_cons] at hlen ⊢
      by_cases ha : e.debounce_time < t1 - e.last_trigger_time
      · have he1last : (irq_handler e t1).last_trigger_time = t1 :=
          irq_handler_last e t1 ha
        have he1D : (irq_handler e t1).debounce_time = e.debounce_time :=
          irq_handler_debounce e t1
        have hrej : ¬ ((irq_handler e t1).debounce_time <
            t2 - (irq_handler e t1).last_trigger_time) := by
          rw [he1last, he1D]
          omega
        rw [show acceptedCount e (t1 :: t2 :: rest) =
            (if e.debounce_time < t1 - e.last_trigger_time then 1 else 0) +
              acceptedCount (irq_handler e t1) (t2 :: rest) from rfl]
        rw [if_pos ha]
        rw [show acceptedCount (irq_handler e t1) (t2 :: rest) =
            (if (irq_handler e t1).debounce_time <
                t2 - (irq_handler e t1).last_trigger_time then 1 else 0) +
              acceptedCount (irq_handler (irq_handler e t1) t2) rest from rfl]
        rw [if_neg hrej, irq_handler_reject _ _ hrej]
        have hchainrest : closeChainB (irq_handler e t1).debounce_time rest = true := by
          rw [he1D]
          exact closeFrom_chain _ _ _ hrest
        have hrec := ih (irq_handler e t1) rest (by omega) hchainrest
        omega
      · rw [show acceptedCount e (t1 :: t2 :: rest) =
            (if e.debounce_time < t1 - e.last_trigger_time then 1 else 0) +
              acceptedCount (irq_handler e t1) (t2 :: rest) from rfl]
        rw [if_neg ha, irq_handler_reject _ _ ha]
        have hchain2 : closeChainB e.debounce_time (t2 :: rest) = true := by
          simpa [closeChainB] using hrest
        have hrec := ih e (t2 :: rest) (by simp only [List.length_cons]; omega) hchain2
        simp only [List.length_cons] at hrec
        omega

/-- Over a train of qualifying edges (each more than the debounce window
after the previously accepted one) the encoder behaves as a pure
modulo-`ppr` counter: the closed form of `runEdges` from any in-range
state. -/
theorem runEdges_qual :
    ∀ (ts : List Nat) (ppr D pc : Nat) (act : Bool) (last : Nat),
      qualChainB D last ts = true → pc < ppr →
      runEdges ⟨ppr, D, pc, act, last⟩ ts =
        ⟨ppr, D, (pc + ts.length) % ppr,
          act || decide (ppr ≤ pc + ts.length), lastEdge last ts⟩ := by
  intro ts
  induction ts with
  | nil =>
    intro ppr D pc act last _ hpc
    have hnle : ¬ ppr ≤ pc + 0 := by omega
    simp [runEdges, lastEdge, Nat.mod_eq_of_lt, hpc, hnle]
  | cons t ts ih =>
    intro ppr D pc act last hq hpc
    have hq' : (D < t - last) ∧ qualChainB D t ts = true := by
      simpa [qualChainB, Bool.and_eq_true, decide_eq_true_eq] using hq
    obtain ⟨ht, hq2⟩ := hq'
    rw [show runEdges ⟨ppr, D, pc, act, last⟩ (t :: ts) =
        runEdges (irq_handler ⟨ppr, D, pc, act, last⟩ t) ts from rfl]
    by_cases hfull : ppr ≤ pc + 1
    · have he1 : irq_handler ⟨ppr, D, pc, act, last⟩ t = ⟨ppr, D, 0, true, t⟩ := by
        unfold irq_handler
        dsimp only
        rw [if_pos ht, if_pos hfull]
      rw [he1, ih ppr D 0 true t hq2 (by omega)]
      have hsum : pc + (ts.length + 1) = ppr + ts.length := by omega
      simp [Encoder.mk.injEq, List.length_cons, lastEdge, hsum, Nat.add_mod_left]
    · have he1 : irq_handler ⟨ppr, D, pc, act, last⟩ t = ⟨ppr, D, pc + 1, act, t⟩ := by
        unfold irq_handler
        dsimp only
        rw [if_pos ht, if_neg hfull]
      rw [he1, ih ppr D (pc + 1) act t hq2 (by omega)]
      have hsum : pc + 1 + ts.length = pc + (ts.length + 1) := by omega
      simp [Encoder.mk.injEq, List.length_cons, lastEdge, hsum]

/-- C8 counterexample: the claim quantifies over every N ≥ 1, but a single
edge (N = 1) vacuously satisfies "each within less than the debounce
window of the previous one", and a single edge arriving after the debounce
window from the initial timestamp registers exactly 1 pulse, which is not
strictly fewer than N = 1. -/
theorem C8_single_edge_registers :
    closeChainB enc0.debounce_time [2000] = true ∧
    acceptedCount enc0 [2000] = 1 ∧
    ¬ acceptedCount enc0 [2000] < 1 := by
  decide

/-- C8 amended: for every N ≥ 2, if N edges are delivered each within less
than the debounce window of the previous one, the handler registers
strictly fewer than N pulses (consecutive too-close edges are collapsed:
no two consecutive edges can both be accepted). -/
theorem C8_close_edges_collapse (e : Encoder) (ts : List Nat)
    (h2 : 2 ≤ ts.length) (hc : closeChainB e.debounce_time ts = true) :
    acceptedCount e ts < ts.length := by
  have h := acceptedCount_le_aux ts.length e ts (Nat.le_refl _) hc
  omega

/-- C8 witness: collapsing on a concrete two-edge too-close train. -/
theorem C8_close_edges_collapse_witness :
    (2 ≤ ([2000, 2500] : List Nat).length ∧
      closeChainB enc0.debounce_time [2000, 2500] = true) ∧
    acceptedCount enc0 [2000, 2500] < ([2000, 2500] : List Nat).length :=
  ⟨⟨by decide, by decide⟩,
    C8_close_edges_collapse enc0 [2000, 2500] (by decide) (by decide)⟩

/-- C9: the pending-activation state is a single saturating boolean.  From
a drained state (flag clear, pulse counter zero), any k ≥ 1 complete pulse
groups of `ppr` qualifying edges leave the flag set and the pulse counter
zero, and exactly one subsequent `is_activated` call returns true: the
first returns true, the next returns false — excess groups are lost, not
queued. -/
theorem C9_saturating_flag (ppr D k last : Nat) (ts : List Nat)
    (hppr : 0 < ppr) (hk : 1 ≤ k)
    (hlen : ts.length = k * ppr)
    (hq : qualChainB D last ts = true) :
    (runEdges ⟨ppr, D, 0, false, last⟩ ts).activated = true ∧
    (runEdges ⟨ppr, D, 0, false, last⟩ ts).pulse_count = 0 ∧
    (is_activated (runEdges ⟨ppr, D, 0, false, last⟩ ts)).1 = true ∧
    (is_activated (is_activated (runEdges ⟨ppr, D, 0, false, last⟩ ts)).2).1 = false := by
  rw [runEdges_qual ts ppr D 0 false last hq hppr]
  have hmod : ts.length % ppr = 0 := by
    rw [hlen]
    exact Nat.mul_mod_left k ppr
  have hge : ppr ≤ ts.length := by
    rw [hlen]
    calc ppr = 1 * ppr := (Nat.one_mul ppr).symm
    _ ≤ k * ppr := Nat.mul_le_mul_right ppr hk
  simp [is_activated, hmod, hge]

/-- C9 witness: two complete pulse groups (k = 2, ppr = 2) of qualifying
edges set the flag once and one drain consumes it. -/
theorem C9_saturating_flag_witness :
    (0 < 2 ∧ 1 ≤ 2 ∧ ([2000, 4000, 6000, 8000] : List Nat).length = 2 * 2 ∧
      qualChainB 1000 0 [2000, 4000, 6000, 8000] = true) ∧
    ((runEdges ⟨2, 1000, 0, false, 0⟩ [2000, 4000, 6000, 8000]).activated = true ∧
      (runEdges ⟨2, 1000, 0, false, 0⟩ [2000, 4000, 6000, 8000]).pulse_count = 0 ∧
      (is_activated (runEdges ⟨2, 1000, 0, false, 0⟩ [2000, 4000, 6000, 8000])).1 = true ∧
      (is_activated
        (is_activated (runEdges ⟨2, 1000, 0, false, 0⟩ [2000, 4000, 6000, 8000])).2).1
        = false) :=
  ⟨⟨by decide, by decide, by decide, by decide⟩,
    C9_saturating_flag 2 1000 2 0 [2000, 4000, 6000, 8000]
      (by decide) (by decide) (by decide) (by decide)⟩

/-- C4 counterexample: the claim says consuming a pending activation in
IDLE disables the detector and resets the counters, and that no edge
delivered during a sequence can trigger an immediate re-activation.  On
the concrete encoder of `main`: after edges at 2000, 4000, 6000 µs the
flag is set with pulse counter 1; consuming the activation leaves the
pulse counter at 1 (no reset), and two further edges delivered during the
sequence set the flag again, so the next poll immediately re-activates. -/
theorem C4_sequence_edges_requeue :
    (runEdges enc0 [2000, 4000, 6000]).activated = true ∧
    (runEdges enc0 [2000, 4000, 6000]).pulse_count = 1 ∧
    (is_activated (runEdges enc0 [2000, 4000, 6000])).1 = true ∧
    ((is_activated (runEdges enc0 [2000, 4000, 6000])).2).pulse_count = 1 ∧
    (is_activated (runEdges (is_activated (runEdges enc0 [2000, 4000, 6000])).2
      [8000, 10000])).1 = true := by
  decide

/-- C4 amended: when a pending activation is consumed in IDLE, the main
loop only clears the activated flag — the detector is never disabled and
the pulse counter and last-trigger time are not reset — and edges
delivered during the active sequence are still processed, so a complete
pulse group of qualifying edges during the sequence sets the flag again
and triggers an immediate re-activation at the next poll. -/
theorem C4_consume_keeps_detector_live (ppr D pc last : Nat) (act : Bool)
    (ts : List Nat)
    (ha : act = true)
    (hpc : pc < ppr)
    (hlen : ts.length = ppr)
    (hq : qualChainB D last ts = true) :
    (is_activated ⟨ppr, D, pc, act, last⟩).1 = true ∧
    (is_activated ⟨ppr, D, pc, act, last⟩).2 = ⟨ppr, D, pc, false, last⟩ ∧
    (is_activated (runEdges ⟨ppr, D, pc, false, last⟩ ts)).1 = true := by
  subst ha
  refine ⟨by simp [is_activated], by simp [is_activated], ?_⟩
  rw [runEdges_qual ts ppr D pc false last hq hpc]
  have hge : ppr ≤ pc + ts.length := by omega
  simp [is_activated, hge]

/-- C4 witness: consuming the activation and re-arming within the sequence
at a concrete encoder state. -/
theorem C4_consume_keeps_detector_live_witness :
    (true = true ∧ 0 < 2 ∧ ([6000, 8000] : List Nat).length = 2 ∧
      qualChainB 1000 4000 [6000, 8000] = true) ∧
    ((is_activated ⟨2, 1000, 0, true, 4000⟩).1 = true ∧
      (is_activated ⟨2, 1000, 0, true, 4000⟩).2 = (⟨2, 1000, 0, false, 4000⟩ : Encoder) ∧
      (is_activated (runEdges ⟨2, 1000, 0, false, 4000⟩ [6000, 8000])).1 = true) :=
  ⟨⟨rfl, by decide, by decide, by decide⟩,
    C4_consume_keeps_detector_live 2 1000 0 4000 true [6000, 8000]
      rfl (by decide) (by decide) (by decide)⟩
